import Mathlib

/-
Verification development for the Uganda electronic platform's mobile-money
core: provider status mapping and phone-number handling
(backend/custom/services/mobile_money.py, backend/custom/webhooks/webhook_utils.py),
the retrying HTTP transport (uganda-backend-code/services/http_client.py), and
the v2 webhook handlers (backend/custom/webhooks/mobile_money_webhooks_v2.py).

Python strings are modelled as Lean String / List Char.  Python dict lookups
with defaults become Option.getD.  Python exceptions become Except results.
Django cache / ORM state is passed explicitly through a record type.
-/

namespace UgandaPay

/-- Python str.upper for the ASCII payloads used by the webhook code:
uppercases each character. -/
def pyUpper (s : String) : String := String.mk (s.toList.map Char.toUpper)

/-- webhook_utils.parse_mtn_status: dict lookup on the uppercased status with
default 'pending'. -/
def parse_mtn_status (status : String) : String :=
  let u := pyUpper status
  if u = "SUCCESSFUL" then "successful"
  else if u = "FAILED" then "failed"
  else if u = "PENDING" then "pending"
  else "pending"

/-- webhook_utils.parse_airtel_status: dict lookup on the uppercased status
code with default 'pending'.  The source map also contains the entry
'CANCELLED' -> 'failed'. -/
def parse_airtel_status (status_code : String) : String :=
  let u := pyUpper status_code
  if u = "TS" then "successful"
  else if u = "TF" then "failed"
  else if u = "TA" then "pending"
  else if u = "TIP" then "pending"
  else if u = "CANCELLED" then "failed"
  else "pending"

/-- The MTN status vocabulary enumerated by the specification. -/
def mtnVocab : List String := ["SUCCESSFUL", "FAILED", "PENDING"]

/-- The Airtel status vocabulary enumerated by the specification
(the source map additionally handles 'CANCELLED'). -/
def airtelVocabClaimed : List String := ["TS", "TF", "TA", "TIP"]

/-- The internal status vocabulary. -/
def internalStatuses : List String := ["successful", "failed", "pending"]

-- ---------------------------------------------------------------------------
-- Phone-number cleaning in the provider adapters (services/mobile_money.py)
-- ---------------------------------------------------------------------------

/-- Python str.startswith restricted to character lists. -/
def startsWithList : List Char → List Char → Bool
  | [], _ => true
  | _ :: _, [] => false
  | p :: ps, c :: cs => p == c && startsWithList ps cs

/-- Python s.replace("+", ""): removes every occurrence of '+'. -/
def pyRemovePlus (l : List Char) : List Char := l.filter (fun c => c ≠ '+')

/-- Python s.replace("256", ""): removes every (non-overlapping, left-to-right)
occurrence of the substring "256". -/
def pyReplace256 : List Char → List Char
  | [] => []
  | [c] => [c]
  | [c, d] => [c, d]
  | c :: d :: e :: rest =>
    if c == '2' && d == '5' && e == '6' then pyReplace256 rest
    else c :: pyReplace256 (d :: e :: rest)

/-- Whether "256" occurs as a substring. -/
def contains256 : List Char → Bool
  | [] => false
  | c :: rest => startsWithList ['2', '5', '6'] (c :: rest) || contains256 rest

/-- MTNMoMoAPI.request_to_pay, line 196:
phone_clean = phone_e164.replace("+", "").replace("256", "") — the partyId
sent to MTN. -/
def mtnPartyId (phone_e164 : String) : String :=
  String.mk (pyReplace256 (pyRemovePlus phone_e164.toList))

/-- AirtelMoneyAPI.initiate_payment, line 408:
phone_clean = msisdn_e164.replace("+", "") — the msisdn sent to Airtel. -/
def airtelMsisdn (msisdn_e164 : String) : String :=
  String.mk (pyRemovePlus msisdn_e164.toList)

-- ---------------------------------------------------------------------------
-- MobileMoneyService.validate_phone_number (services/mobile_money.py 494-524)
-- ---------------------------------------------------------------------------

/-- Error values of the Python layer: MobileMoneyError versus any other
exception. -/
inductive PyErr
  | mobileMoneyError (msg : String)
  | otherError (msg : String)
deriving DecidableEq, Repr

instance {ε α : Type} [DecidableEq ε] [DecidableEq α] : DecidableEq (Except ε α) :=
  fun a b =>
    match a, b with
    | Except.ok x, Except.ok y =>
      if h : x = y then Decidable.isTrue (by rw [h])
      else Decidable.isFalse (by intro hh; cases hh; exact h rfl)
    | Except.error x, Except.error y =>
      if h : x = y then Decidable.isTrue (by rw [h])
      else Decidable.isFalse (by intro hh; cases hh; exact h rfl)
    | Except.ok _, Except.error _ => Decidable.isFalse (by intro hh; cases hh)
    | Except.error _, Except.ok _ => Decidable.isFalse (by intro hh; cases hh)

/-- phone_number.replace(' ', '').replace('-', '').replace('+', ''). -/
def stripSeparators (l : List Char) : List Char :=
  ((l.filter (fun c => c ≠ ' ')).filter (fun c => c ≠ '-')).filter (fun c => c ≠ '+')

/-- Lines 512-515: add the country code if missing (leading '0' is replaced by
'256'; a number not starting with '256' gets '256' prepended). -/
def addCountryCode (l : List Char) : List Char :=
  if l.head? = some '0' then '2' :: '5' :: '6' :: l.tail
  else if startsWithList ['2', '5', '6'] l then l
  else '2' :: '5' :: '6' :: l

/-- MobileMoneyService.validate_phone_number: strip separators, add the
country code, then require a '256' prefix and exactly 12 characters. -/
def validate_phone_number (phone_number : String) : Except PyErr String :=
  let phone := addCountryCode (stripSeparators phone_number.toList)
  if startsWithList ['2', '5', '6'] phone ∧ phone.length = 12 then
    Except.ok (String.mk phone)
  else
    Except.error (PyErr.mobileMoneyError
      ("Invalid Uganda phone number format: " ++ phone_number))

-- ---------------------------------------------------------------------------
-- MobileMoneyService dispatch (services/mobile_money.py 526-665)
-- ---------------------------------------------------------------------------

/-- The shape of a provider status payload as the service reads it:
status_data.get('status', '') for MTN (line 653) and
status_data.get('status', \x7b\x7d).get('code', '') for Airtel (line 658).
A missing key at either level is modelled as none. -/
structure StatusData where
  status : Option String
  statusCode : Option String
deriving DecidableEq, Repr

/-- Outcomes of the underlying adapter calls, supplied as an explicit
environment: each field is what the corresponding adapter method would
return or raise if reached. -/
structure ServiceEnv where
  mtnRequestToPay : Except PyErr String
  airtelInitiate : Except PyErr String
  mtnCheckStatus : Except PyErr StatusData
  airtelCheckStatus : Except PyErr StatusData
deriving Repr

/-- MobileMoneyService.validate_amount (lines 526-542): rejects amount ≤ 0 and
amount < 100.  Decimal amounts are modelled as rationals. -/
def validate_amount (amount : ℚ) : Except PyErr Unit :=
  if amount ≤ 0 then
    Except.error (PyErr.mobileMoneyError "Amount must be greater than zero")
  else if amount < 100 then
    Except.error (PyErr.mobileMoneyError "Amount must be at least 100 UGX")
  else Except.ok ()

/-- The except-clauses at the end of initiate_payment / check_payment_status:
a MobileMoneyError is re-raised unchanged, any other exception is wrapped
into a MobileMoneyError with a context message. -/
def wrapOtherError (ctx : String) : PyErr → PyErr
  | PyErr.mobileMoneyError m => PyErr.mobileMoneyError m
  | PyErr.otherError m => PyErr.mobileMoneyError (ctx ++ m)

/-- MobileMoneyService.initiate_payment (lines 544-599): validates phone and
amount, dispatches on the provider string, raises
MobileMoneyError("Unsupported provider: ...") for any other provider, and
wraps non-MobileMoneyError exceptions. -/
def initiate_payment (env : ServiceEnv) (provider phone_number : String)
    (amount : ℚ) (order_number : String) : Except PyErr String :=
  match validate_phone_number phone_number with
  | Except.error e => Except.error e
  | Except.ok _ =>
    match validate_amount amount with
    | Except.error e => Except.error e
    | Except.ok _ =>
      let dispatched : Except PyErr String :=
        if provider = "mtn_momo" then env.mtnRequestToPay
        else if provider = "airtel_money" then
          match env.airtelInitiate with
          | Except.ok _ => Except.ok order_number
          | Except.error e => Except.error e
        else Except.error (PyErr.mobileMoneyError ("Unsupported provider: " ++ provider))
      match dispatched with
      | Except.ok v => Except.ok v
      | Except.error e => Except.error (wrapOtherError "Payment initiation failed: " e)

/-- MobileMoneyService.check_payment_status (lines 601-631): dispatch on the
provider string, MobileMoneyError("Unsupported provider: ...") otherwise,
with the same except-clause wrapping. -/
def check_payment_status (env : ServiceEnv) (provider transaction_id : String) :
    Except PyErr StatusData :=
  let dispatched : Except PyErr StatusData :=
    if provider = "mtn_momo" then env.mtnCheckStatus
    else if provider = "airtel_money" then env.airtelCheckStatus
    else Except.error (PyErr.mobileMoneyError ("Unsupported provider: " ++ provider))
  match dispatched with
  | Except.ok v => Except.ok v
  | Except.error e => Except.error (wrapOtherError "Status check failed: " e)

/-- MobileMoneyService.verify_payment (lines 633-665): calls
check_payment_status inside a try-block whose bare except returns False, so
the function is total; True exactly when MTN reports an
(uppercased) status of SUCCESSFUL or Airtel reports code TS. -/
def verify_payment (env : ServiceEnv) (provider transaction_id : String) : Bool :=
  match check_payment_status env provider transaction_id with
  | Except.error _ => false
  | Except.ok status_data =>
    if provider = "mtn_momo" then
      pyUpper (status_data.status.getD "") == "SUCCESSFUL"
    else if provider = "airtel_money" then
      status_data.statusCode.getD "" == "TS"
    else false

-- ---------------------------------------------------------------------------
-- RetryingSession.request (uganda-backend-code/services/http_client.py 70-154)
-- ---------------------------------------------------------------------------

/-- A Retry-After header value as the code consumes it: float(retry_after)
either succeeds (numeric) or raises ValueError (non-numeric, ignored). -/
inductive RetryAfter
  | numeric (seconds : ℚ)
  | nonNumeric (raw : String)
deriving DecidableEq, Repr

/-- One HTTP response as consumed by the retry loop. -/
structure HttpResp where
  status_code : ℕ
  retryAfter : Option RetryAfter
deriving DecidableEq, Repr

/-- One network attempt's outcome: a response, or a requests.RequestException. -/
inductive AttemptOutcome
  | resp (r : HttpResp)
  | netErr (msg : String)
deriving DecidableEq, Repr

/-- RetryingSession configuration (__init__, lines 51-68): max_retries
(default 3) and the base backoff (default 0.6 seconds). -/
structure RetryCfg where
  max_retries : ℕ
  backoff : ℚ
deriving DecidableEq, Repr

/-- Status codes retried by line 112. -/
def retryStatuses : List ℕ := [429, 500, 502, 503, 504]

/-- Lines 113-120: wait_time = backoff * 2^attempt, overridden by a numeric
Retry-After header. -/
def waitTime (cfg : RetryCfg) (attempt : ℕ) (r : HttpResp) : ℚ :=
  match r.retryAfter with
  | some (RetryAfter.numeric q) => q
  | some (RetryAfter.nonNumeric _) => cfg.backoff * 2 ^ attempt
  | none => cfg.backoff * 2 ^ attempt

/-- The retry loop of RetryingSession.request, consuming one outcome per
attempt.  Returns the result (response or raised PaymentAPIError message),
the list of sleep durations, and the number of attempts logged (the
logger.info call at the top of each loop iteration).  The empty-outcome case
is a model artifact: the outcome stream must supply one entry per attempt
actually made. -/
def requestAux (cfg : RetryCfg) : ℕ → List AttemptOutcome →
    Except String HttpResp × List ℚ × ℕ
  | _, [] => (Except.error "no outcome supplied", [], 0)
  | attempt, AttemptOutcome.resp r :: rest =>
    if r.status_code ∈ retryStatuses ∧ attempt < cfg.max_retries then
      let w := waitTime cfg attempt r
      let rec_result := requestAux cfg (attempt + 1) rest
      (rec_result.1, w :: rec_result.2.1, rec_result.2.2 + 1)
    else (Except.ok r, [], 1)
  | attempt, AttemptOutcome.netErr e :: rest =>
    if attempt < cfg.max_retries then
      let w := cfg.backoff * 2 ^ attempt
      let rec_result := requestAux cfg (attempt + 1) rest
      (rec_result.1, w :: rec_result.2.1, rec_result.2.2 + 1)
    else (Except.error ("Network error: " ++ e), [], 1)

/-- RetryingSession.request: run the loop from attempt 0. -/
def sessionRequest (cfg : RetryCfg) (outcomes : List AttemptOutcome) :
    Except String HttpResp × List ℚ × ℕ :=
  requestAux cfg 0 outcomes

-- ---------------------------------------------------------------------------
-- Webhook handlers (webhooks/mobile_money_webhooks_v2.py, webhook_utils.py)
-- ---------------------------------------------------------------------------

/-- A MobileMoneyTransaction row together with the order fields the handlers
touch (order.payment_verified); completed_at is modelled as a stamped flag.
The opaque provider_response audit blob is outside the model. -/
structure MMTransaction where
  id : String
  provider : String
  transaction_reference : String
  orderNumber : String
  status : String
  errorMessage : Option String
  completed : Bool
  orderPaymentVerified : Bool
deriving DecidableEq, Repr

/-- Shared mutable state seen by the webhook handlers: the Django cache keys
currently set (idempotency markers), the transaction rows, and the queue of
send_payment_confirmed_sms.delay(txn.id) enqueues. -/
structure WebhookState where
  processed : List String
  txns : List MMTransaction
  notifications : List String
deriving DecidableEq, Repr

/-- Database/cache operations in program order, used to check the ordering of
the idempotency mark against the atomic block's commit. -/
inductive DbOp
  | orderSave
  | enqueueConfirmSms
  | txnSave
  | markProcessed
  | commit
deriving DecidableEq, Repr

/-- The JSON body and HTTP status of a webhook response (ok is the
'status': 'success' / 'error' field). -/
structure WebhookResponse where
  ok : Bool
  message : String
  httpStatus : ℕ
deriving DecidableEq, Repr

/-- webhook_utils.generate_event_id. -/
def generate_event_id (provider reference_id : String) : String :=
  provider ++ ":" ++ reference_id

/-- WebhookIdempotency.get_cache_key. -/
def idempotencyCacheKey (provider event_id : String) : String :=
  "webhook_processed:" ++ provider ++ ":" ++ event_id

/-- The dedup cache key the MTN handler uses for a given referenceId
(generate_event_id already embeds the provider, so it appears twice). -/
def mtnDedupKey (reference_id : String) : String :=
  idempotencyCacheKey "mtn" (generate_event_id "mtn" reference_id)

/-- The dedup cache key the Airtel handler uses for a given transaction id. -/
def airtelDedupKey (transaction_id : String) : String :=
  idempotencyCacheKey "airtel" (generate_event_id "airtel" transaction_id)

/-- txn.save(): replace every row carrying the saved row's primary key. -/
def saveTxn (txns : List MMTransaction) (t' : MMTransaction) : List MMTransaction :=
  txns.map (fun t => if t.id == t'.id then t' else t)

/-- The MTN callback payload fields the handler reads (each data.get with its
default modelled via Option). -/
structure MtnPayload where
  externalId : Option String
  referenceId : Option String
  status : Option String
  reason : Option String
deriving DecidableEq, Repr

/-- The Airtel callback payload fields the handler reads. -/
structure AirtelPayload where
  txnId : Option String
  txnReference : Option String
  statusCode : Option String
  statusMessage : Option String
deriving DecidableEq, Repr

/-- Status fields shared by the two handlers' update branches
(lines 136-159 and 328-351): set the status unconditionally; on 'successful'
stamp completion, mark the order verified and enqueue the confirmation SMS;
on 'failed' store the error reason. -/
def applyStatusUpdate (s : WebhookState) (key : String) (txn : MMTransaction)
    (internal reason fallbackReason : String) : WebhookState × List DbOp :=
  if internal = "successful" then
    let txn' := { txn with status := internal, completed := true,
                           orderPaymentVerified := true }
    ({ processed := key :: s.processed,
       txns := saveTxn s.txns txn',
       notifications := s.notifications ++ [txn.id] },
     [DbOp.orderSave, DbOp.enqueueConfirmSms, DbOp.txnSave, DbOp.markProcessed,
      DbOp.commit])
  else if internal = "failed" then
    let msg := if reason = "" then fallbackReason else reason
    let txn' := { txn with status := internal, errorMessage := some msg }
    ({ processed := key :: s.processed,
       txns := saveTxn s.txns txn',
       notifications := s.notifications },
     [DbOp.txnSave, DbOp.markProcessed, DbOp.commit])
  else
    let txn' := { txn with status := internal }
    ({ processed := key :: s.processed,
       txns := saveTxn s.txns txn',
       notifications := s.notifications },
     [DbOp.txnSave, DbOp.markProcessed, DbOp.commit])

/-- mtn_momo_callback (lines 47-201), with the signature secret and the IP
allowlist left at their unconfigured defaults ('' and []), under which the
source skips both checks.  Returns the HTTP response, the new shared state,
and the database/cache operations in program order. -/
def mtn_momo_callback (p : MtnPayload) (s : WebhookState) :
    WebhookResponse × WebhookState × List DbOp :=
  let reference_id := p.referenceId.getD ""
  if reference_id = "" then
    ({ ok := false, message := "Missing referenceId", httpStatus := 400 }, s, [])
  else
    let key := mtnDedupKey reference_id
    if key ∈ s.processed then
      ({ ok := true, message := "Already processed", httpStatus := 200 }, s, [])
    else
      let internal := parse_mtn_status (p.status.getD "PENDING")
      match s.txns.find? (fun t => t.transaction_reference == reference_id) with
      | none =>
        ({ ok := false, message := "Transaction not found", httpStatus := 404 },
         s, [DbOp.commit])
      | some txn =>
        let (s', ops) := applyStatusUpdate s key txn internal
          (p.reason.getD "") "Payment failed"
        ({ ok := true, message := "Webhook processed", httpStatus := 200 },
         s', ops)

/-- The transaction lookup of airtel_money_callback (lines 303-315): first by
(provider='airtel_money', transaction_reference=transaction_id), then by
(provider='airtel_money', order number = transaction.reference) when the
payload carries a truthy reference. -/
def airtelFindTxn (txns : List MMTransaction) (transaction_id order_ref : String) :
    Option MMTransaction :=
  match txns.find? (fun t =>
      t.provider == "airtel_money" && t.transaction_reference == transaction_id) with
  | some t => some t
  | none =>
    if order_ref = "" then none
    else txns.find? (fun t =>
      t.provider == "airtel_money" && t.orderNumber == order_ref)

/-- Line 248: transaction_id = transaction.get('id') or
transaction.get('reference'), following Python truthiness (None and '' fall
through to the reference). -/
def airtelTransactionId (p : AirtelPayload) : String :=
  let tid0 := p.txnId.getD ""
  if tid0 = "" then p.txnReference.getD "" else tid0

/-- airtel_money_callback (lines 210-390), with security settings at their
unconfigured defaults. -/
def airtel_money_callback (p : AirtelPayload) (s : WebhookState) :
    WebhookResponse × WebhookState × List DbOp :=
  let transaction_id := airtelTransactionId p
  if transaction_id = "" then
    ({ ok := false, message := "Missing transaction ID", httpStatus := 400 }, s, [])
  else
    let key := airtelDedupKey transaction_id
    if key ∈ s.processed then
      ({ ok := true, message := "Already processed", httpStatus := 200 }, s, [])
    else
      let internal := parse_airtel_status (p.statusCode.getD "TIP")
      match airtelFindTxn s.txns transaction_id (p.txnReference.getD "") with
      | none =>
        ({ ok := false, message := "Transaction not found", httpStatus := 404 },
         s, [DbOp.commit])
      | some txn =>
        let (s', ops) := applyStatusUpdate s key txn internal
          (p.statusMessage.getD "") "Payment failed"
        ({ ok := true, message := "Webhook processed", httpStatus := 200 },
         s', ops)

/-- Status of the transaction with the given primary key. -/
def txStatus (s : WebhookState) (i : String) : Option String :=
  (s.txns.find? (fun t => t.id == i)).map (fun t => t.status)

/-- The terminal statuses (spec glossary). -/
def terminalStatuses : List String := ["successful", "failed", "cancelled"]

-- ---------------------------------------------------------------------------
-- Concrete scenarios
-- ---------------------------------------------------------------------------

/-- A pending Airtel transaction for order ORD-1 with provider reference A1. -/
def scTxn : MMTransaction :=
  { id := "T1", provider := "airtel_money", transaction_reference := "A1",
    orderNumber := "ORD-1", status := "pending", errorMessage := none,
    completed := false, orderPaymentVerified := false }

/-- Clean initial state holding only scTxn. -/
def scState0 : WebhookState := { processed := [], txns := [scTxn], notifications := [] }

/-- Airtel success callback carrying provider event id A1. -/
def airtelPayloadTS1 : AirtelPayload :=
  { txnId := some "A1", txnReference := some "ORD-1",
    statusCode := some "TS", statusMessage := some "Transaction successful" }

/-- Airtel failure callback for the same order but a distinct provider event
id A2: the primary lookup misses and the order-reference fallback finds the
same transaction. -/
def airtelPayloadTF2 : AirtelPayload :=
  { txnId := some "A2", txnReference := some "ORD-1",
    statusCode := some "TF", statusMessage := some "Transaction failed" }

/-- Airtel success callback replaying the same outcome under the distinct
provider event id A2. -/
def airtelPayloadTS2 : AirtelPayload :=
  { txnId := some "A2", txnReference := some "ORD-1",
    statusCode := some "TS", statusMessage := some "Transaction successful" }

/-- State after processing airtelPayloadTS1 from scState0. -/
def scState1 : WebhookState := (airtel_money_callback airtelPayloadTS1 scState0).2.1

/-- A pending MTN transaction with provider reference R1. -/
def mtnTxn : MMTransaction :=
  { id := "M1", provider := "mtn_momo", transaction_reference := "R1",
    orderNumber := "ORD-2", status := "pending", errorMessage := none,
    completed := false, orderPaymentVerified := false }

/-- Clean initial state holding only mtnTxn. -/
def mtnState0 : WebhookState := { processed := [], txns := [mtnTxn], notifications := [] }

/-- MTN success callback for reference R1. -/
def mtnPayloadOk : MtnPayload :=
  { externalId := some "ORD-2", referenceId := some "R1",
    status := some "SUCCESSFUL", reason := some "" }

/-- The claim that in a handler run's operation trace the idempotency mark
happens only after the commit. -/
def marksOnlyAfterCommit (ops : List DbOp) : Prop :=
  ∀ i : Fin ops.length, ops.get i = DbOp.markProcessed →
    ∀ j : Fin ops.length, ops.get j = DbOp.commit → j.val < i.val

instance : DecidablePred marksOnlyAfterCommit := fun ops => by
  unfold marksOnlyAfterCommit; infer_instance

/-- An adapter environment in which both providers' status checks succeed
with their success vocabulary. -/
def scEnv : ServiceEnv :=
  { mtnRequestToPay := Except.ok "ref-1",
    airtelInitiate := Except.ok "accepted",
    mtnCheckStatus := Except.ok { status := some "SUCCESSFUL", statusCode := none },
    airtelCheckStatus := Except.ok { status := none, statusCode := some "TS" } }

-- ---------------------------------------------------------------------------
-- Helper lemmas
-- ---------------------------------------------------------------------------

/-- Removing occurrences of "256" from a string with no such occurrence is
the identity. -/
theorem pyReplace256_of_not_contains (l : List Char) (h : contains256 l = false) :
    pyReplace256 l = l := by
  induction l with
  | nil => rfl
  | cons c rest ih =>
    rw [contains256, Bool.or_eq_false_iff] at h
    obtain ⟨h1, h2⟩ := h
    match rest, ih, h2 with
    | [], _, _ => rfl
    | [d], _, _ => rfl
    | d :: e :: rest3, ih, h2 =>
      rw [pyReplace256, if_neg, ih h2]
      intro hcond
      rw [startsWithList, startsWithList, startsWithList, startsWithList] at h1
      simp only [Bool.and_eq_true, beq_iff_eq] at hcond
      simp only [Bool.and_true, Bool.and_eq_false_iff] at h1
      obtain ⟨⟨hc, hd⟩, he⟩ := hcond
      subst hc; subst hd; subst he
      simp at h1

/-- A digit character is not '+'. -/
theorem isDigit_ne_plus (c : Char) (h : c.isDigit = true) : c ≠ '+' := by
  intro hc; subst hc; simp [Char.isDigit] at h

-- ---------------------------------------------------------------------------
-- C5: adapter phone cleaning
-- ---------------------------------------------------------------------------

/-- C5 counterexample.  The canonical number 256702563456 (country code 256
followed by the 9 subscriber digits 702563456) is sent to MTN as partyId
703456: request_to_pay's replace("256", "") removes the inner occurrence of
256 as well, not only the leading country code.  This refutes the claim that
partyId is exactly the 9 subscriber digits. -/
theorem mtn_partyId_truncates_inner_256 :
    mtnPartyId "256702563456" = "703456" ∧
    ("702563456".toList).length = 9 ∧
    (∀ c ∈ "702563456".toList, c.isDigit = true) ∧
    ("703456" : String) ≠ "702563456" := by decide

/-- C5 amended: for a canonical number 256 followed by 9 digits, the MTN
partyId is exactly the 9 subscriber digits provided the substring 256 does
not occur among those digits (otherwise that inner occurrence is removed
too), and the Airtel msisdn is the canonical number unchanged (only '+'
characters are removed, and a canonical number has none). -/
theorem adapter_phone_cleaning (rest : List Char) (hlen : rest.length = 9)
    (hdig : ∀ c ∈ rest, c.isDigit = true) (hocc : contains256 rest = false) :
    mtnPartyId (String.mk ('2' :: '5' :: '6' :: rest)) = String.mk rest ∧
    airtelMsisdn (String.mk ('2' :: '5' :: '6' :: rest)) =
      String.mk ('2' :: '5' :: '6' :: rest) := by
  have hplus : ∀ c ∈ ('2' :: '5' :: '6' :: rest), (decide (c ≠ '+')) = true := by
    intro c hc
    simp only [List.mem_cons] at hc
    rcases hc with rfl | rfl | rfl | hc
    · decide
    · decide
    · decide
    · simpa using isDigit_ne_plus c (hdig c hc)
  have hfilter : pyRemovePlus ('2' :: '5' :: '6' :: rest) =
      '2' :: '5' :: '6' :: rest := List.filter_eq_self.mpr hplus
  have htl : (String.mk ('2' :: '5' :: '6' :: rest)).toList =
      '2' :: '5' :: '6' :: rest := rfl
  constructor
  · unfold mtnPartyId
    rw [htl, hfilter]
    have h2 : pyReplace256 ('2' :: '5' :: '6' :: rest) = pyReplace256 rest := rfl
    rw [h2, pyReplace256_of_not_contains rest hocc]
  · unfold airtelMsisdn
    rw [htl, hfilter]

/-- Witness for the amended C5 statement at the subscriber digits 700123456. -/
theorem adapter_phone_cleaning_witness :
    ("700123456".toList).length = 9 ∧
    mtnPartyId (String.mk ('2' :: '5' :: '6' :: "700123456".toList)) =
      String.mk "700123456".toList :=
  ⟨by decide,
   (adapter_phone_cleaning "700123456".toList (by decide) (by decide) (by decide)).1⟩

-- ---------------------------------------------------------------------------
-- C6: status mapping totality
-- ---------------------------------------------------------------------------

/-- C6 counterexample: the Airtel mapping is not 'pending' on every string
outside the enumerated vocabulary TS/TF/TA/TIP — the source map also sends
CANCELLED to 'failed'. -/
theorem airtel_status_cancelled_not_pending :
    ¬ (∀ s : String, pyUpper s ∉ airtelVocabClaimed → parse_airtel_status s = "pending") := by
  intro h
  exact absurd (h "CANCELLED" (by decide)) (by decide)

/-- C6 amended: both mappings are total into successful/failed/pending; the
enumerated codes map as claimed; the Airtel vocabulary additionally contains
CANCELLED, mapped to 'failed'; every string whose uppercasing lies outside
the respective vocabulary maps to 'pending', never to 'successful'. -/
theorem status_mapping_totality :
    (parse_mtn_status "SUCCESSFUL" = "successful" ∧
     parse_mtn_status "FAILED" = "failed" ∧
     parse_mtn_status "PENDING" = "pending") ∧
    (parse_airtel_status "TS" = "successful" ∧
     parse_airtel_status "TF" = "failed" ∧
     parse_airtel_status "TA" = "pending" ∧
     parse_airtel_status "TIP" = "pending" ∧
     parse_airtel_status "CANCELLED" = "failed") ∧
    (∀ s : String, parse_mtn_status s ∈ internalStatuses ∧
       parse_airtel_status s ∈ internalStatuses) ∧
    (∀ s : String, pyUpper s ∉ mtnVocab → parse_mtn_status s = "pending") ∧
    (∀ s : String, pyUpper s ∉ ("CANCELLED" :: airtelVocabClaimed) →
       parse_airtel_status s = "pending") := by
  refine ⟨by decide, by decide, ?_, ?_, ?_⟩
  · intro s
    constructor
    · simp only [parse_mtn_status]
      split_ifs <;> decide
    · simp only [parse_airtel_status]
      split_ifs <;> decide
  · intro s h
    simp only [mtnVocab, List.mem_cons, List.not_mem_nil, or_false, not_or] at h
    simp only [parse_mtn_status]
    split_ifs with h1 h2 h3
    · exact absurd h1 h.1
    · exact absurd h2 h.2.1
    · rfl
    · rfl
  · intro s h
    simp only [airtelVocabClaimed, List.mem_cons, List.not_mem_nil, or_false, not_or] at h
    simp only [parse_airtel_status]
    split_ifs with h1 h2 h3 h4 h5
    · exact absurd h1 h.2.1
    · exact absurd h2 h.2.2.1
    · rfl
    · rfl
    · exact absurd h5 h.1
    · rfl

/-- Witness for the quantified parts of the amended C6 statement at an
unknown code. -/
theorem status_mapping_totality_witness :
    parse_mtn_status "REJECTED" = "pending" ∧ parse_airtel_status "REJECTED" = "pending" :=
  ⟨status_mapping_totality.2.2.2.1 "REJECTED" (by decide),
   status_mapping_totality.2.2.2.2 "REJECTED" (by decide)⟩

-- ---------------------------------------------------------------------------
-- C7: retry on 503 then 200
-- ---------------------------------------------------------------------------

/-- C7: when the first attempt yields HTTP 503 and the second HTTP 200, the
transport returns the second response, sleeps exactly once for the
attempt-0 wait time (base backoff times 2^0, or a numeric Retry-After value
when present), and logs exactly 2 attempts. -/
theorem retry_503_then_200 (cfg : RetryCfg) (r1 r2 : HttpResp)
    (rest : List AttemptOutcome) (hm : 0 < cfg.max_retries)
    (h1 : r1.status_code = 503) (h2 : r2.status_code = 200) :
    sessionRequest cfg (AttemptOutcome.resp r1 :: AttemptOutcome.resp r2 :: rest) =
      (Except.ok r2, [waitTime cfg 0 r1], 2) := by
  unfold sessionRequest
  rw [requestAux, if_pos ⟨by rw [h1]; decide, hm⟩]
  rw [requestAux, if_neg (by rw [h2]; intro hc; exact absurd hc.1 (by decide))]

/-- Witness for C7 at the default configuration (3 retries, 0.6s backoff). -/
theorem retry_503_then_200_witness :
    sessionRequest { max_retries := 3, backoff := 3/5 }
      [AttemptOutcome.resp { status_code := 503, retryAfter := none },
       AttemptOutcome.resp { status_code := 200, retryAfter := none }] =
    (Except.ok { status_code := 200, retryAfter := none },
     [waitTime { max_retries := 3, backoff := 3/5 } 0
        { status_code := 503, retryAfter := none }], 2) :=
  retry_503_then_200 { max_retries := 3, backoff := 3/5 }
    { status_code := 503, retryAfter := none }
    { status_code := 200, retryAfter := none } [] (by decide) rfl rfl

-- ---------------------------------------------------------------------------
-- C8: unsupported provider handling
-- ---------------------------------------------------------------------------

/-- C8 counterexample: for an unsupported provider, verify_payment completes
and silently returns False (the bare except swallows the
MobileMoneyError("Unsupported provider ...") raised by
check_payment_status), refuting the claim that every entry point fails with
a typed unsupported-provider error. -/
theorem verify_payment_swallows_unsupported_provider :
    ("unsupported" : String) ≠ "mtn_momo" ∧ ("unsupported" : String) ≠ "airtel_money" ∧
    verify_payment scEnv "unsupported" "t-1" = false := by decide

/-- C8 amended: initiate_payment and check_payment_status fail with a typed
MobileMoneyError("Unsupported provider: ...") for every provider other than
mtn_momo and airtel_money (for initiate_payment, once phone and amount
validation pass), while verify_payment catches that error and returns
False. -/
theorem unsupported_provider_dispatch (env : ServiceEnv)
    (provider phone tid order pc : String) (amount : ℚ)
    (hp1 : provider ≠ "mtn_momo") (hp2 : provider ≠ "airtel_money")
    (hph : validate_phone_number phone = Except.ok pc)
    (ham : validate_amount amount = Except.ok ()) :
    initiate_payment env provider phone amount order =
      Except.error (PyErr.mobileMoneyError ("Unsupported provider: " ++ provider)) ∧
    check_payment_status env provider tid =
      Except.error (PyErr.mobileMoneyError ("Unsupported provider: " ++ provider)) ∧
    verify_payment env provider tid = false := by
  have hcheck : check_payment_status env provider tid =
      Except.error (PyErr.mobileMoneyError ("Unsupported provider: " ++ provider)) := by
    unfold check_payment_status
    rw [if_neg hp1, if_neg hp2]
    rfl
  refine ⟨?_, hcheck, ?_⟩
  · unfold initiate_payment
    rw [hph, ham, if_neg hp1, if_neg hp2]
    rfl
  · unfold verify_payment
    rw [hcheck]

/-- Witness for the amended C8 statement at provider 'unsupported'. -/
theorem unsupported_provider_dispatch_witness :
    initiate_payment scEnv "unsupported" "0700123456" 50000 "ORD-1" =
      Except.error (PyErr.mobileMoneyError "Unsupported provider: unsupported") ∧
    check_payment_status scEnv "unsupported" "t-1" =
      Except.error (PyErr.mobileMoneyError "Unsupported provider: unsupported") ∧
    verify_payment scEnv "unsupported" "t-1" = false :=
  unsupported_provider_dispatch scEnv "unsupported" "0700123456" "t-1" "ORD-1"
    "256700123456" 50000 (by decide) (by decide) (by decide) (by decide)

-- ---------------------------------------------------------------------------
-- C10: verify_payment is total and exact
-- ---------------------------------------------------------------------------

/-- C10: verify_payment is a total Boolean function in the embedding (the
bare except in the source catches every exception and returns False): every
errored status check yields False, and it yields True exactly when MTN
reports an uppercased status of SUCCESSFUL or Airtel reports code TS. -/
theorem verify_payment_total_and_exact (env : ServiceEnv) (provider tid : String) :
    (∀ e, check_payment_status env provider tid = Except.error e →
       verify_payment env provider tid = false) ∧
    (verify_payment env provider tid = true ↔
       ∃ d, check_payment_status env provider tid = Except.ok d ∧
         ((provider = "mtn_momo" ∧ pyUpper (d.status.getD "") = "SUCCESSFUL") ∨
          (provider = "airtel_money" ∧ d.statusCode.getD "" = "TS"))) := by
  unfold verify_payment
  cases hc : check_payment_status env provider tid with
  | error e =>
    refine ⟨fun _ _ => rfl, ?_⟩
    simp
  | ok d =>
    constructor
    · intro e he
      exact absurd he (by simp)
    by_cases h1 : provider = "mtn_momo"
    · subst h1
      simp [beq_iff_eq]
    · by_cases h2 : provider = "airtel_money"
      · subst h2
        simp [beq_iff_eq]
      · simp [if_neg h1, if_neg h2, h1, h2]

/-- Witness for C10: at the concrete environment, the MTN branch verifies
and the unsupported branch returns False via the error clause. -/
theorem verify_payment_total_and_exact_witness :
    verify_payment scEnv "mtn_momo" "t-1" = true := by
  refine (verify_payment_total_and_exact scEnv "mtn_momo" "t-1").2.mpr
    ⟨{ status := some "SUCCESSFUL", statusCode := none }, ?_, ?_⟩
  · rfl
  · exact Or.inl (by decide)

-- ---------------------------------------------------------------------------
-- C9: phone normalization idempotence
-- ---------------------------------------------------------------------------

/-- A list accepted by the 256-prefix check starts with the characters
2, 5, 6. -/
theorem startsWith256_shape (l : List Char)
    (h : startsWithList ['2', '5', '6'] l = true) :
    ∃ t, l = '2' :: '5' :: '6' :: t := by
  rcases l with _ | ⟨c, _ | ⟨d, _ | ⟨e, t⟩⟩⟩
  · simp [startsWithList] at h
  · simp [startsWithList] at h
  · simp [startsWithList] at h
  · simp only [startsWithList, Bool.and_eq_true, beq_iff_eq, Bool.and_true] at h
    obtain ⟨h1, h2, h3⟩ := h
    exact ⟨t, by rw [← h1, ← h2, ← h3]⟩

/-- Characters of addCountryCode come from the input or from the prepended
country code. -/
theorem mem_addCountryCode (l : List Char) (c : Char) (h : c ∈ addCountryCode l) :
    c = '2' ∨ c = '5' ∨ c = '6' ∨ c ∈ l := by
  unfold addCountryCode at h
  split_ifs at h with h1 h2
  · simp only [List.mem_cons] at h
    rcases h with rfl | rfl | rfl | h
    · exact Or.inl rfl
    · exact Or.inr (Or.inl rfl)
    · exact Or.inr (Or.inr (Or.inl rfl))
    · exact Or.inr (Or.inr (Or.inr (List.mem_of_mem_tail h)))
  · exact Or.inr (Or.inr (Or.inr h))
  · simp only [List.mem_cons] at h
    rcases h with rfl | rfl | rfl | h
    · exact Or.inl rfl
    · exact Or.inr (Or.inl rfl)
    · exact Or.inr (Or.inr (Or.inl rfl))
    · exact Or.inr (Or.inr (Or.inr h))

/-- The separator strip leaves no separator characters behind. -/
theorem mem_stripSeparators (l : List Char) (c : Char) (h : c ∈ stripSeparators l) :
    c ≠ ' ' ∧ c ≠ '-' ∧ c ≠ '+' := by
  unfold stripSeparators at h
  simp only [List.mem_filter, decide_eq_true_eq] at h
  exact ⟨h.1.1.2, h.1.2, h.2⟩

/-- Stripping separators from a separator-free list is the identity. -/
theorem stripSeparators_eq_self (l : List Char)
    (h : ∀ c ∈ l, c ≠ ' ' ∧ c ≠ '-' ∧ c ≠ '+') : stripSeparators l = l := by
  unfold stripSeparators
  have e1 : l.filter (fun c => c ≠ ' ') = l :=
    List.filter_eq_self.mpr (by intro c hc; simpa using (h c hc).1)
  rw [e1]
  have e2 : l.filter (fun c => c ≠ '-') = l :=
    List.filter_eq_self.mpr (by intro c hc; simpa using (h c hc).2.1)
  rw [e2]
  exact List.filter_eq_self.mpr (by intro c hc; simpa using (h c hc).2.2)

/-- C9: validate_phone_number is idempotent on accepted inputs, and the
local, prefixed and plus-prefixed forms of the same subscriber number all
normalize to 256700123456. -/
theorem validate_phone_number_idempotent :
    (∀ s p, validate_phone_number s = Except.ok p →
       validate_phone_number p = Except.ok p) ∧
    validate_phone_number "0700123456" = Except.ok "256700123456" ∧
    validate_phone_number "256700123456" = Except.ok "256700123456" ∧
    validate_phone_number "+256700123456" = Except.ok "256700123456" := by
  refine ⟨?_, by decide, by decide, by decide⟩
  intro s p h
  unfold validate_phone_number at h
  by_cases hc : startsWithList ['2', '5', '6']
      (addCountryCode (stripSeparators s.toList)) = true ∧
      (addCountryCode (stripSeparators s.toList)).length = 12
  · rw [if_pos hc] at h
    injection h with h'
    subst h'
    obtain ⟨t, hshape⟩ := startsWith256_shape _ hc.1
    have hsep : ∀ c ∈ addCountryCode (stripSeparators s.toList),
        c ≠ ' ' ∧ c ≠ '-' ∧ c ≠ '+' := by
      intro c hcm
      rcases mem_addCountryCode _ c hcm with rfl | rfl | rfl | hm
      · exact ⟨by decide, by decide, by decide⟩
      · exact ⟨by decide, by decide, by decide⟩
      · exact ⟨by decide, by decide, by decide⟩
      · exact mem_stripSeparators _ c hm
    unfold validate_phone_number
    have htl : (String.mk (addCountryCode (stripSeparators s.toList))).toList =
        addCountryCode (stripSeparators s.toList) := rfl
    rw [htl, stripSeparators_eq_self _ hsep]
    have hA : addCountryCode (addCountryCode (stripSeparators s.toList)) =
        addCountryCode (stripSeparators s.toList) := by
      rw [hshape]
      unfold addCountryCode
      rw [if_neg (by simp), if_pos (by simp [startsWithList])]
    rw [hA, if_pos hc]
  · rw [if_neg hc] at h
    cases h

/-- Witness for the idempotence part of C9 at the canonical output of the
local form. -/
theorem validate_phone_number_idempotent_witness :
    validate_phone_number "256700123456" = Except.ok "256700123456" :=
  validate_phone_number_idempotent.1 "0700123456" "256700123456" (by decide)

-- ---------------------------------------------------------------------------
-- Webhook helper lemmas
-- ---------------------------------------------------------------------------

/-- A delivery whose MTN dedup key is already marked returns the
already-processed success response, leaves the state untouched and performs
no database or cache operation. -/
theorem mtn_marked_noop (p : MtnPayload) (s : WebhookState)
    (h0 : p.referenceId.getD "" ≠ "")
    (h1 : mtnDedupKey (p.referenceId.getD "") ∈ s.processed) :
    mtn_momo_callback p s =
      ({ ok := true, message := "Already processed", httpStatus := 200 }, s, []) := by
  simp only [mtn_momo_callback]
  rw [if_neg h0, if_pos h1]

/-- A delivery whose Airtel dedup key is already marked returns the
already-processed success response, leaves the state untouched and performs
no database or cache operation. -/
theorem airtel_marked_noop (p : AirtelPayload) (s : WebhookState)
    (h0 : airtelTransactionId p ≠ "")
    (h1 : airtelDedupKey (airtelTransactionId p) ∈ s.processed) :
    airtel_money_callback p s =
      ({ ok := true, message := "Already processed", httpStatus := 200 }, s, []) := by
  simp only [airtel_money_callback]
  rw [if_neg h0, if_pos h1]

/-- After saving a row, looking the row's primary key up again finds the
saved version, provided some row with that key was present. -/
theorem find?_saveTxn (l : List MMTransaction) (txn txn' : MMTransaction)
    (hid : txn'.id = txn.id) (hmem : ∃ a ∈ l, a.id = txn.id) :
    (saveTxn l txn').find? (fun t => t.id == txn.id) = some txn' := by
  induction l with
  | nil => obtain ⟨a, ha, _⟩ := hmem; cases ha
  | cons a l ih =>
    unfold saveTxn
    simp only [List.map_cons]
    by_cases ha : a.id = txn'.id
    · rw [if_pos (by simp [ha])]
      rw [List.find?_cons]
      rw [show (txn'.id == txn.id) = true from beq_iff_eq.mpr hid]
    · rw [if_neg (by simp [ha])]
      rw [List.find?_cons]
      rw [show (a.id == txn.id) = false from beq_eq_false_iff_ne.mpr (hid ▸ ha)]
      apply ih
      obtain ⟨b, hb, hbid⟩ := hmem
      simp only [List.mem_cons] at hb
      rcases hb with rfl | hb
      · exact absurd (hbid.trans hid.symm) ha
      · exact ⟨b, hb, hbid⟩

/-- A row found by provider reference is a member of the store. -/
theorem mem_of_find?_ref (l : List MMTransaction) (pred : MMTransaction → Bool)
    (txn : MMTransaction) (h : l.find? pred = some txn) :
    ∃ a ∈ l, a.id = txn.id :=
  ⟨txn, List.mem_of_find?_eq_some h, rfl⟩

/-- Full characterization of a fresh successful MTN webhook run: status
overwritten to successful, completion stamped, order verified, one
notification enqueued, dedup key marked, with the operation trace
[orderSave, enqueueConfirmSms, txnSave, markProcessed, commit]. -/
theorem mtn_run_success (p : MtnPayload) (s : WebhookState) (rid : String)
    (txn : MMTransaction)
    (hp : p.referenceId = some rid) (hrid : rid ≠ "")
    (hkey : mtnDedupKey rid ∉ s.processed)
    (hfind : s.txns.find? (fun t => t.transaction_reference == rid) = some txn)
    (hsucc : parse_mtn_status (p.status.getD "PENDING") = "successful") :
    mtn_momo_callback p s =
      ({ ok := true, message := "Webhook processed", httpStatus := 200 },
       { processed := mtnDedupKey rid :: s.processed,
         txns := saveTxn s.txns
           { txn with status := "successful", completed := true,
                      orderPaymentVerified := true },
         notifications := s.notifications ++ [txn.id] },
       [DbOp.orderSave, DbOp.enqueueConfirmSms, DbOp.txnSave, DbOp.markProcessed,
        DbOp.commit]) := by
  simp only [mtn_momo_callback, hp, Option.getD_some]
  rw [if_neg hrid, if_neg hkey, hfind]
  simp only [applyStatusUpdate]
  rw [if_pos hsucc, hsucc]

-- ---------------------------------------------------------------------------
-- C1: terminal-state monotonicity
-- ---------------------------------------------------------------------------

/-- C1 counterexample.  From a clean state, the Airtel TS callback with
provider event id A1 puts transaction T1 into the terminal status
successful; a subsequent TF callback carrying the distinct provider event id
A2 (found via the order-reference fallback) flips it to the other terminal
status failed.  The handlers check no terminal state, so a terminal
transaction does not keep the first terminal status observed. -/
theorem terminal_status_flips_on_distinct_event_id :
    txStatus scState1 "T1" = some "successful" ∧
    "successful" ∈ terminalStatuses ∧
    txStatus (airtel_money_callback airtelPayloadTF2 scState1).2.1 "T1" = some "failed" ∧
    ("failed" : String) ≠ "successful" := by decide

/-- C1 amended: a transaction's status (terminal or not) is left unchanged
exactly by deliveries whose dedup key is already marked; a delivery with an
unmarked key overwrites the stored status with the mapped provider status
unconditionally, with no terminal-state check. -/
theorem status_overwrite_guarded_only_by_dedup :
    (∀ (p : MtnPayload) (s : WebhookState),
       p.referenceId.getD "" ≠ "" →
       mtnDedupKey (p.referenceId.getD "") ∈ s.processed →
       (mtn_momo_callback p s).2.1 = s) ∧
    (∀ (p : AirtelPayload) (s : WebhookState),
       airtelTransactionId p ≠ "" →
       airtelDedupKey (airtelTransactionId p) ∈ s.processed →
       (airtel_money_callback p s).2.1 = s) ∧
    (∀ (p : MtnPayload) (s : WebhookState) (rid : String) (txn : MMTransaction),
       p.referenceId = some rid → rid ≠ "" →
       mtnDedupKey rid ∉ s.processed →
       s.txns.find? (fun t => t.transaction_reference == rid) = some txn →
       parse_mtn_status (p.status.getD "PENDING") = "successful" →
       txStatus (mtn_momo_callback p s).2.1 txn.id = some "successful") := by
  refine ⟨?_, ?_, ?_⟩
  · intro p s h0 h1
    rw [mtn_marked_noop p s h0 h1]
  · intro p s h0 h1
    rw [airtel_marked_noop p s h0 h1]
  · intro p s rid txn hp hrid hkey hfind hsucc
    unfold txStatus
    rw [mtn_run_success p s rid txn hp hrid hkey hfind hsucc]
    dsimp only
    rw [find?_saveTxn s.txns txn
      { txn with status := "successful", completed := true,
                 orderPaymentVerified := true }
      rfl (mem_of_find?_ref _ _ _ hfind)]
    rfl

/-- Witness for the amended C1 statement: a marked MTN delivery leaves a
terminal state untouched, and a fresh successful delivery overwrites. -/
theorem status_overwrite_guarded_only_by_dedup_witness :
    (mtn_momo_callback mtnPayloadOk
      { processed := [mtnDedupKey "R1"], txns := [mtnTxn], notifications := [] }).2.1 =
      { processed := [mtnDedupKey "R1"], txns := [mtnTxn], notifications := [] } ∧
    txStatus (mtn_momo_callback mtnPayloadOk mtnState0).2.1 "M1" = some "successful" :=
  ⟨status_overwrite_guarded_only_by_dedup.1 mtnPayloadOk _ (by decide) (by decide),
   status_overwrite_guarded_only_by_dedup.2.2 mtnPayloadOk mtnState0 "R1" mtnTxn
     rfl (by decide) (by decide) (by decide) (by decide)⟩

-- ---------------------------------------------------------------------------
-- C2: idempotent webhook replay
-- ---------------------------------------------------------------------------

/-- C2: once the MTN dedup key is marked, every delivery with that identity
returns the already-processed success response with no state change and no
side effect; and delivering an identical fresh successful MTN payload twice
performs exactly one status transition and enqueues exactly one
notification, the second delivery being a pure success response. -/
theorem mtn_webhook_replay_idempotent :
    (∀ (p : MtnPayload) (s : WebhookState),
       p.referenceId.getD "" ≠ "" →
       mtnDedupKey (p.referenceId.getD "") ∈ s.processed →
       mtn_momo_callback p s =
         ({ ok := true, message := "Already processed", httpStatus := 200 }, s, [])) ∧
    (∀ (p : MtnPayload) (s : WebhookState) (rid : String) (txn : MMTransaction),
       p.referenceId = some rid → rid ≠ "" →
       mtnDedupKey rid ∉ s.processed →
       s.txns.find? (fun t => t.transaction_reference == rid) = some txn →
       parse_mtn_status (p.status.getD "PENDING") = "successful" →
       (mtn_momo_callback p s).2.1.notifications = s.notifications ++ [txn.id] ∧
       txStatus (mtn_momo_callback p s).2.1 txn.id = some "successful" ∧
       mtn_momo_callback p (mtn_momo_callback p s).2.1 =
         ({ ok := true, message := "Already processed", httpStatus := 200 },
          (mtn_momo_callback p s).2.1, [])) := by
  refine ⟨fun p s h0 h1 => mtn_marked_noop p s h0 h1, ?_⟩
  intro p s rid txn hp hrid hkey hfind hsucc
  have hrun := mtn_run_success p s rid txn hp hrid hkey hfind hsucc
  refine ⟨by rw [hrun], ?_, ?_⟩
  · unfold txStatus
    rw [hrun]
    dsimp only
    rw [find?_saveTxn s.txns txn
      { txn with status := "successful", completed := true,
                 orderPaymentVerified := true }
      rfl (mem_of_find?_ref _ _ _ hfind)]
    rfl
  · apply mtn_marked_noop
    · rw [hp]; exact hrid
    · rw [hrun, hp]
      dsimp only
      exact List.mem_cons_self _ _

/-- Witness for C2 at the concrete pending MTN transaction and its
successful payload. -/
theorem mtn_webhook_replay_idempotent_witness :
    (mtn_momo_callback mtnPayloadOk mtnState0).2.1.notifications = [] ++ ["M1"] ∧
    txStatus (mtn_momo_callback mtnPayloadOk mtnState0).2.1 "M1" = some "successful" ∧
    mtn_momo_callback mtnPayloadOk (mtn_momo_callback mtnPayloadOk mtnState0).2.1 =
      ({ ok := true, message := "Already processed", httpStatus := 200 },
       (mtn_momo_callback mtnPayloadOk mtnState0).2.1, []) :=
  mtn_webhook_replay_idempotent.2 mtnPayloadOk mtnState0 "R1" mtnTxn
    rfl (by decide) (by decide) (by decide) (by decide)

-- ---------------------------------------------------------------------------
-- C3 / C4 helper lemmas about the update branch
-- ---------------------------------------------------------------------------

/-- The update branch enqueues at most one notification, exactly on the
successful branch. -/
theorem applyStatusUpdate_notifications (s : WebhookState) (key : String)
    (txn : MMTransaction) (internal reason fb : String) :
    (applyStatusUpdate s key txn internal reason fb).1.notifications = s.notifications ∨
    (applyStatusUpdate s key txn internal reason fb).1.notifications =
      s.notifications ++ [txn.id] := by
  unfold applyStatusUpdate
  split_ifs <;> simp

/-- The update branch's operation trace: the idempotency mark always comes
after the transaction save and before the commit. -/
theorem applyStatusUpdate_ops (s : WebhookState) (key : String)
    (txn : MMTransaction) (internal reason fb : String) :
    (applyStatusUpdate s key txn internal reason fb).2 =
      [DbOp.txnSave, DbOp.markProcessed, DbOp.commit] ∨
    (applyStatusUpdate s key txn internal reason fb).2 =
      [DbOp.orderSave, DbOp.enqueueConfirmSms, DbOp.txnSave, DbOp.markProcessed,
       DbOp.commit] := by
  unfold applyStatusUpdate
  split_ifs <;> simp

-- ---------------------------------------------------------------------------
-- C3: notification deduplication
-- ---------------------------------------------------------------------------

/-- C3 counterexample.  There is no transaction-id + target-status
deduplication: after the TS callback with event id A1 enqueued one
confirmation for T1, a second TS callback for the same transaction under the
distinct event id A2 enqueues a second confirmation for the same transaction
and the same target status. -/
theorem duplicate_notification_across_event_ids :
    scState1.notifications = ["T1"] ∧
    txStatus scState1 "T1" = some "successful" ∧
    (airtel_money_callback airtelPayloadTS2 scState1).2.1.notifications = ["T1", "T1"] ∧
    txStatus (airtel_money_callback airtelPayloadTS2 scState1).2.1 "T1" =
      some "successful" := by decide

/-- C3 amended: notification enqueues are guarded only by the webhook dedup
key — a delivery whose event identity is marked enqueues nothing, and any
single delivery enqueues at most one notification — but nothing deduplicates
across distinct event identities for the same transaction. -/
theorem notification_guarded_only_by_event_identity :
    (∀ (p : AirtelPayload) (s : WebhookState),
       airtelTransactionId p ≠ "" →
       airtelDedupKey (airtelTransactionId p) ∈ s.processed →
       (airtel_money_callback p s).2.1.notifications = s.notifications) ∧
    (∀ (p : MtnPayload) (s : WebhookState),
       (mtn_momo_callback p s).2.1.notifications = s.notifications ∨
       ∃ t : MMTransaction,
         (mtn_momo_callback p s).2.1.notifications = s.notifications ++ [t.id]) ∧
    (∀ (p : AirtelPayload) (s : WebhookState),
       (airtel_money_callback p s).2.1.notifications = s.notifications ∨
       ∃ t : MMTransaction,
         (airtel_money_callback p s).2.1.notifications = s.notifications ++ [t.id]) := by
  refine ⟨?_, ?_, ?_⟩
  · intro p s h0 h1
    rw [airtel_marked_noop p s h0 h1]
  · intro p s
    simp only [mtn_momo_callback]
    split_ifs with h1 h2
    · exact Or.inl rfl
    · exact Or.inl rfl
    · rcases hf : List.find?
          (fun t => t.transaction_reference == p.referenceId.getD "") s.txns with _ | txn
      · try rw [hf]
        dsimp only
        exact Or.inl rfl
      · try rw [hf]
        dsimp only
        rcases applyStatusUpdate_notifications s (mtnDedupKey (p.referenceId.getD ""))
            txn (parse_mtn_status (p.status.getD "PENDING")) (p.reason.getD "")
            "Payment failed" with h | h
        · exact Or.inl h
        · exact Or.inr ⟨txn, h⟩
  · intro p s
    simp only [airtel_money_callback]
    split_ifs with h1 h2
    · exact Or.inl rfl
    · exact Or.inl rfl
    · rcases hf : airtelFindTxn s.txns (airtelTransactionId p)
          (p.txnReference.getD "") with _ | txn
      · try rw [hf]
        dsimp only
        exact Or.inl rfl
      · try rw [hf]
        dsimp only
        rcases applyStatusUpdate_notifications s (airtelDedupKey (airtelTransactionId p))
            txn (parse_airtel_status (p.statusCode.getD "TIP")) (p.statusMessage.getD "")
            "Payment failed" with h | h
        · exact Or.inl h
        · exact Or.inr ⟨txn, h⟩

/-- Witness for the amended C3 statement: replaying the marked A1 identity
enqueues nothing. -/
theorem notification_guarded_only_by_event_identity_witness :
    (airtel_money_callback airtelPayloadTS1 scState1).2.1.notifications =
      scState1.notifications :=
  notification_guarded_only_by_event_identity.1 airtelPayloadTS1 scState1
    (by decide) (by decide)

-- ---------------------------------------------------------------------------
-- C4: dedup mark versus commit ordering
-- ---------------------------------------------------------------------------

/-- C4 counterexample.  In the successful MTN run's operation trace the
idempotency mark (cache.set inside the atomic block, line 162) precedes the
commit issued when the atomic block exits, refuting the claim that the dedup
key is marked only after the database update has committed. -/
theorem dedup_marked_before_commit :
    (mtn_momo_callback mtnPayloadOk mtnState0).2.2 =
      [DbOp.orderSave, DbOp.enqueueConfirmSms, DbOp.txnSave, DbOp.markProcessed,
       DbOp.commit] ∧
    ¬ marksOnlyAfterCommit (mtn_momo_callback mtnPayloadOk mtnState0).2.2 := by decide

/-- C4 amended: every handler run traces one of four operation sequences; in
the two sequences containing the idempotency mark, the mark follows the
transaction save immediately and precedes the atomic block's commit, and
runs that stop before the save (missing id, duplicate delivery, transaction
not found) never mark the key. -/
theorem dedup_mark_trace_shapes :
    (∀ (p : MtnPayload) (s : WebhookState),
       (mtn_momo_callback p s).2.2 = [] ∨
       (mtn_momo_callback p s).2.2 = [DbOp.commit] ∨
       (mtn_momo_callback p s).2.2 = [DbOp.txnSave, DbOp.markProcessed, DbOp.commit] ∨
       (mtn_momo_callback p s).2.2 =
         [DbOp.orderSave, DbOp.enqueueConfirmSms, DbOp.txnSave, DbOp.markProcessed,
          DbOp.commit]) ∧
    (∀ (p : AirtelPayload) (s : WebhookState),
       (airtel_money_callback p s).2.2 = [] ∨
       (airtel_money_callback p s).2.2 = [DbOp.commit] ∨
       (airtel_money_callback p s).2.2 = [DbOp.txnSave, DbOp.markProcessed, DbOp.commit] ∨
       (airtel_money_callback p s).2.2 =
         [DbOp.orderSave, DbOp.enqueueConfirmSms, DbOp.txnSave, DbOp.markProcessed,
          DbOp.commit]) := by
  constructor
  · intro p s
    simp only [mtn_momo_callback]
    split_ifs with h1 h2
    · exact Or.inl rfl
    · exact Or.inl rfl
    · rcases hf : List.find?
          (fun t => t.transaction_reference == p.referenceId.getD "") s.txns with _ | txn
      · try rw [hf]
        dsimp only
        exact Or.inr (Or.inl rfl)
      · try rw [hf]
        dsimp only
        rcases applyStatusUpdate_ops s (mtnDedupKey (p.referenceId.getD ""))
            txn (parse_mtn_status (p.status.getD "PENDING")) (p.reason.getD "")
            "Payment failed" with h | h
        · exact Or.inr (Or.inr (Or.inl h))
        · exact Or.inr (Or.inr (Or.inr h))
  · intro p s
    simp only [airtel_money_callback]
    split_ifs with h1 h2
    · exact Or.inl rfl
    · exact Or.inl rfl
    · rcases hf : airtelFindTxn s.txns (airtelTransactionId p)
          (p.txnReference.getD "") with _ | txn
      · try rw [hf]
        dsimp only
        exact Or.inr (Or.inl rfl)
      · try rw [hf]
        dsimp only
        rcases applyStatusUpdate_ops s (airtelDedupKey (airtelTransactionId p))
            txn (parse_airtel_status (p.statusCode.getD "TIP")) (p.statusMessage.getD "")
            "Payment failed" with h | h
        · exact Or.inr (Or.inr (Or.inl h))
        · exact Or.inr (Or.inr (Or.inr h))

end UgandaPay
